import Mathlib

/-
Shallow embedding of the psi::err fallible-result core
(result_or_error.hpp, fallible_result.hpp, exceptions.hpp).

Conventions:
* Exceptions are modelled by an abstract type `X`.  The `make_exception`
  customisation point of exceptions.hpp (defaulting to identity) is the
  parameter `mkE : E → X`; `make_and_throw_exception e` therefore throws
  `mkE e`.
* A potentially-throwing operation on a state `s` returns
  `Option X × state`: first component `some x` means the operation threw
  the exception `x`, `none` means it returned normally; the second
  component is the object's state afterwards.
* `std::uncaught_exceptions()` is the parameter `uncaught : Nat`; it is
  passed only to the operations whose source actually reads it
  (`detail::conditional_throw`, reached from the compressed
  specialisation's `throw_error`).  The generic and void paths never read
  it (their guards exist only as comments / debug assertions).
* Debug-only `BOOST_ASSERT` side effects are not modelled: the embedding
  follows the release (NDEBUG) semantics, with assertion preconditions
  noted in comments.
-/

set_option autoImplicit false

namespace PsiErr

/-- Compile-time properties of a C++ type, as far as the
`compressed_result_error_variant` trait of result_or_error.hpp inspects
them (`std::is_empty`, `std::is_convertible<_, bool>`,
`std::is_default_constructible`, `std::is_fundamental`). -/
structure CppType where
  is_empty : Bool
  is_convertible_to_bool : Bool
  is_default_constructible : Bool
  is_fundamental : Bool

/-- Embedding of the trait `compressed_result_error_variant<Result, Error>`
(result_or_error.hpp): `std::is_empty_v<Error> &&
std::is_convertible_v<Result, bool> &&
std::is_default_constructible_v<Result> &&
!std::is_fundamental_v<Result>` (fundamental types are excluded because
they convert to bool for all of their values). -/
def compressed_result_error_variant (Result Error : CppType) : Bool :=
  Error.is_empty &&
  Result.is_convertible_to_bool &&
  Result.is_default_constructible &&
  !Result.is_fundamental

/-- Modelled from the spec's words, for comparison with the source trait:
the compressed representation applies "when E is an empty/stateless type
and R is default-constructible and convertible to boolean". -/
def spec_compressed_condition (Result Error : CppType) : Bool :=
  Error.is_empty &&
  Result.is_convertible_to_bool &&
  Result.is_default_constructible

/-- Embedding of `detail::conditional_throw` (exceptions.hpp): throws the
translated error only when no exception is currently propagating:
`if (!std::uncaught_exceptions()) make_and_throw_exception(move(error));`. -/
def conditional_throw {E X : Type} (mkE : E → X) (uncaught : Nat) (e : E) :
    Option X :=
  if uncaught = 0 then some (mkE e) else none

/-- The generic `result_or_error<Result, Error>` (result_or_error.hpp):
fields `bool succeeded_`, `mutable bool inspected_` and an anonymous
`union { Result result_; Error error_; }` whose live member is embedded
as a sum (`Sum.inl` = `result_` live, `Sum.inr` = `error_` live). -/
structure result_or_error (R E : Type) : Type where
  succeeded_ : Bool
  inspected_ : Bool
  payload : R ⊕ E

namespace result_or_error

variable {R E X : Type}

/-- The success constructor (`result_or_error( Source && result )` for
`Source` constructible into `Result`): `succeeded_( true ),
inspected_( false ), result_( ... )`. -/
def fromResult (r : R) : result_or_error R E := ⟨true, false, Sum.inl r⟩

/-- The error constructor (`result_or_error( Source && error )` for
`Source` constructible into `Error`): `succeeded_( false ),
inspected_( false ), error_( ... )`. -/
def fromError (e : E) : result_or_error R E := ⟨false, false, Sum.inr e⟩

/-- `inspected()`: returns `inspected_`, no side effect. -/
def inspected (s : result_or_error R E) : Bool := s.inspected_

/-- `succeeded()`: `inspected_ = true; return succeeded_;` — the mutation
of the (mutable) flag is the designated inspection side effect. -/
def succeeded (s : result_or_error R E) : Bool × result_or_error R E :=
  (s.succeeded_, { s with inspected_ := true })

/-- `explicit operator bool()`: `return succeeded();`. -/
def toBool (s : result_or_error R E) : Bool × result_or_error R E :=
  s.succeeded

/-- `result()`: returns the `result_` union member (live only in the
success state; the debug assertions require `inspected() && succeeded_`,
reading the dead member is undefined and yields `none` here). -/
def result (s : result_or_error R E) : Option R := s.payload.getLeft?

/-- `error()`: returns the `error_` union member (live only in the
failure state; the debug assertions require `inspected() && !succeeded_`). -/
def error (s : result_or_error R E) : Option E := s.payload.getRight?

/-- `throw_error()`: `make_and_throw_exception( std::move( error_ ) );` —
throws the translation of the stored error unconditionally; the
uncaught-exception guard on this path exists only as a commented-out
assertion.  (Asserted precondition: `!succeeded()`.) -/
def throw_error (mkE : E → X) (s : result_or_error R E) :
    Option X × result_or_error R E :=
  (Option.map mkE s.payload.getRight?, s)

/-- `throw_if_error()`: `if ( succeeded() ) return; throw_error();` —
always marks inspected (via `succeeded()`), throws on failure. -/
def throw_if_error (mkE : E → X) (s : result_or_error R E) :
    Option X × result_or_error R E :=
  let p := s.succeeded
  if p.1 then (none, p.2) else throw_error mkE p.2

/-- `throw_if_uninspected_error()`:
`if ( !inspected() ) throw_if_error();`. -/
def throw_if_uninspected_error (mkE : E → X) (s : result_or_error R E) :
    Option X × result_or_error R E :=
  if s.inspected then (none, s) else throw_if_error mkE s

/-- The destructor `~result_or_error()`: destroys whichever union member
is live (`if ( succeeded_ ) result_.~Result(); else error_.~Error();`);
the "Ignored error return code" assertion is commented out in the source
and nothing on this path throws or reads the inspection flag. -/
def dtorThrow (X : Type) (s : result_or_error R E) : Option X := none

/-- The protected move constructor `result_or_error( result_or_error && )`:
initialises `succeeded_( other.succeeded() )` — thereby marking the source
inspected — `inspected_( false )`, and placement-moves the live union
member matching the discriminant.  Returns (destination, moved-from
source). -/
def moveCtor (s : result_or_error R E) :
    result_or_error R E × result_or_error R E :=
  let p := s.succeeded
  (⟨p.1, false, p.2.payload⟩, p.2)

/-- `propagate()`: `return std::move( *this );` — materialises the return
value through the move constructor. -/
def propagate (s : result_or_error R E) :
    result_or_error R E × result_or_error R E :=
  s.moveCtor

end result_or_error

/-- Free `operator==( result_or_error const &, no_err_t )`:
`return result.succeeded();`. -/
def eq_no_err {R E : Type} (s : result_or_error R E) :
    Bool × result_or_error R E :=
  s.succeeded

/-- Free `operator==( result_or_error const &, an_err_t )`:
`return !result.succeeded();`. -/
def eq_an_err {R E : Type} (s : result_or_error R E) :
    Bool × result_or_error R E :=
  let p := s.succeeded
  (!p.1, p.2)

/-- The compressed `result_or_error<Result, Error>` specialisation
(selected when `compressed_result_error_variant<Result, Error>` holds):
stores only `Result result_` and `mutable bool inspected_` — no
`succeeded_` flag.  The boolean conversion of `Result` is the parameter
`rbool`; the stateless `Error` is default-constructed on demand, embedded
as the parameter `edefault`. -/
structure compressed_result_or_error (R : Type) : Type where
  result_ : R
  inspected_ : Bool

namespace compressed_result_or_error

variable {R E X : Type}

/-- The single constructor `result_or_error( Source && result )`:
`result_{ ... }, inspected_{ false }`. -/
def fromSource (r : R) : compressed_result_or_error R := ⟨r, false⟩

/-- `inspected()`: returns `inspected_`. -/
def inspected (s : compressed_result_or_error R) : Bool := s.inspected_

/-- `succeeded()`: `inspected_ = true;
return static_cast<bool>( result_ );` — the truthiness of `result_`
itself carries the outcome. -/
def succeeded (rbool : R → Bool) (s : compressed_result_or_error R) :
    Bool × compressed_result_or_error R :=
  (rbool s.result_, { s with inspected_ := true })

/-- `explicit operator bool()`: `return succeeded();`. -/
def toBool (rbool : R → Bool) (s : compressed_result_or_error R) :
    Bool × compressed_result_or_error R :=
  succeeded rbool s

/-- `error()`: `return Error();` — synthesises a default-constructed
error on demand (asserted precondition: `inspected() && !*this`). -/
def error (edefault : E) (s : compressed_result_or_error R) : E :=
  edefault

/-- `result()`: returns `result_` (asserted precondition:
`inspected() && *this`). -/
def result (s : compressed_result_or_error R) : R := s.result_

/-- `throw_error()`: `detail::conditional_throw( error() );` — unlike the
generic form, the throw is suppressed while an exception is propagating. -/
def throw_error (edefault : E) (mkE : E → X) (uncaught : Nat)
    (s : compressed_result_or_error R) :
    Option X × compressed_result_or_error R :=
  (conditional_throw mkE uncaught (error edefault s), s)

/-- `throw_if_error()`: `if ( succeeded() ) return; throw_error();`. -/
def throw_if_error (rbool : R → Bool) (edefault : E) (mkE : E → X)
    (uncaught : Nat) (s : compressed_result_or_error R) :
    Option X × compressed_result_or_error R :=
  let p := succeeded rbool s
  if p.1 then (none, p.2) else throw_error edefault mkE uncaught p.2

/-- `throw_if_uninspected_error()`:
`if ( !inspected() ) throw_if_error();`. -/
def throw_if_uninspected_error (rbool : R → Bool) (edefault : E)
    (mkE : E → X) (uncaught : Nat) (s : compressed_result_or_error R) :
    Option X × compressed_result_or_error R :=
  if inspected s then (none, s)
  else throw_if_error rbool edefault mkE uncaught s

/-- The destructor of the compressed specialisation: the asserting version
is disabled (`#if 0`) in the source, so the implicitly generated
destructor runs — it throws nothing. -/
def dtorThrow (X : Type) (s : compressed_result_or_error R) : Option X :=
  none

/-- The protected move constructor: `result_{ std::move( other.result_ ) },
inspected_{ false }` then `other.inspected_ = true;`. -/
def moveCtor (s : compressed_result_or_error R) :
    compressed_result_or_error R × compressed_result_or_error R :=
  (⟨s.result_, false⟩, { s with inspected_ := true })

end compressed_result_or_error

/-- The `result_or_error<void, Error>` specialisation: fields
`bool const succeeded_`, `mutable bool inspected_` and
`union { Error error_; }` — the error member is live exactly when
`!succeeded_` (embedded as an `Option` that is `some` in that case). -/
structure void_or_error (E : Type) : Type where
  succeeded_ : Bool
  inspected_ : Bool
  error_ : Option E

namespace void_or_error

variable {E X : Type}

/-- The error constructor: `error_{ ... }, succeeded_{ false },
inspected_{ false }`. -/
def fromError (e : E) : void_or_error E := ⟨false, false, some e⟩

/-- The `no_err_t` constructor: `succeeded_{ true }, inspected_{ false }`
(no union member initialised). -/
def fromNoErr : void_or_error E := ⟨true, false, none⟩

/-- `inspected()`: returns `inspected_`. -/
def inspected (s : void_or_error E) : Bool := s.inspected_

/-- `succeeded()`: `inspected_ = true; return succeeded_;`. -/
def succeeded (s : void_or_error E) : Bool × void_or_error E :=
  (s.succeeded_, { s with inspected_ := true })

/-- `explicit operator bool()`: `return succeeded();`. -/
def toBool (s : void_or_error E) : Bool × void_or_error E := s.succeeded

/-- `error()`: returns the `error_` member (asserted precondition:
`inspected() && !*this`). -/
def error (s : void_or_error E) : Option E := s.error_

/-- `throw_error()`: `make_and_throw_exception( error() );` — throws
unconditionally; the uncaught-exceptions condition appears only as a
debug assertion, not as a guard. -/
def throw_error (mkE : E → X) (s : void_or_error E) :
    Option X × void_or_error E :=
  (Option.map mkE s.error_, s)

/-- `throw_if_error()`: `if ( succeeded() ) return; throw_error();`. -/
def throw_if_error (mkE : E → X) (s : void_or_error E) :
    Option X × void_or_error E :=
  let p := s.succeeded
  if p.1 then (none, p.2) else throw_error mkE p.2

/-- `throw_if_uninspected_error()`:
`if ( !inspected() ) throw_if_error();`. -/
def throw_if_uninspected_error (mkE : E → X) (s : void_or_error E) :
    Option X × void_or_error E :=
  if s.inspected then (none, s) else throw_if_error mkE s

/-- The destructor: `if ( !succeeded_ ) error_.~Error();` — destroys the
live member, throws nothing, reads no inspection flag. -/
def dtorThrow (X : Type) (s : void_or_error E) : Option X := none

/-- The protected move constructor: `succeeded_( other.succeeded() )`
(marking the source inspected), `inspected_( false )`, placement-moving
`error_` when in the failure state. -/
def moveCtor (s : void_or_error E) : void_or_error E × void_or_error E :=
  let p := s.succeeded
  (⟨p.1, false, if p.1 then none else p.2.error_⟩, p.2)

end void_or_error

/-- The generic `fallible_result<Result, Error>` (fallible_result.hpp):
holds exactly one `result_or_error<Result, Error> result_or_error_`. -/
structure fallible_result (R E : Type) : Type where
  result_or_error_ : result_or_error R E

namespace fallible_result

variable {R E X : Type}

/-- Construction forwarding a success source to the wrapped
`result_or_error` (the variadic forwarding constructor). -/
def fromResult (r : R) : fallible_result R E :=
  ⟨result_or_error.fromResult r⟩

/-- Construction forwarding an error source to the wrapped
`result_or_error`. -/
def fromError (e : E) : fallible_result R E :=
  ⟨result_or_error.fromError e⟩

/-- The destructor `~fallible_result() noexcept( false )`:
`result_or_error_.throw_if_uninspected_error();`. -/
def dtorThrow (mkE : E → X) (f : fallible_result R E) :
    Option X × fallible_result R E :=
  let p := f.result_or_error_.throw_if_uninspected_error mkE
  (p.1, ⟨p.2⟩)

/-- `ignore_failure()`: `result_or_error_.inspected_ = true;`. -/
def ignore_failure (f : fallible_result R E) : fallible_result R E :=
  ⟨{ f.result_or_error_ with inspected_ := true }⟩

/-- `as_result_or_error()`:
`std::move( *this ).ignore_failure(); return std::move( result_or_error_ );`
— the by-value return move-constructs a fresh `result_or_error` from the
member.  Returns (decayed object, wrapper afterwards).  `operator()` and
the conversion operator to `result_or_error &&` forward here. -/
def as_result_or_error (f : fallible_result R E) :
    result_or_error R E × fallible_result R E :=
  let s1 : result_or_error R E :=
    { f.result_or_error_ with inspected_ := true }
  let p := s1.moveCtor
  (p.1, ⟨p.2⟩)

/-- `explicit operator bool()`:
`return static_cast<bool>( result_or_error_ );` — forwards to the wrapped
object's `succeeded()`. -/
def toBool (f : fallible_result R E) : Bool × fallible_result R E :=
  let p := f.result_or_error_.succeeded
  (p.1, ⟨p.2⟩)

/-- The private move constructor:
`result_or_error_( std::move( std::move( other ).as_result_or_error() ) )`
— decays the source (marking it inspected) and move-constructs the new
member from the returned temporary.  Returns (destination, moved-from
source). -/
def moveCtor (f : fallible_result R E) :
    fallible_result R E × fallible_result R E :=
  let p := as_result_or_error f
  (⟨p.1.moveCtor.1⟩, p.2)

end fallible_result

/-- `fallible_result<Result, Error>` instantiated at a pair for which the
compressed `result_or_error` specialisation is selected: the same wrapper
code operating on a `compressed_result_or_error` member. -/
structure cmp_fallible_result (R : Type) : Type where
  result_or_error_ : compressed_result_or_error R

namespace cmp_fallible_result

variable {R E X : Type}

/-- Construction forwarding a source to the compressed member. -/
def fromSource (r : R) : cmp_fallible_result R :=
  ⟨compressed_result_or_error.fromSource r⟩

/-- The destructor: `result_or_error_.throw_if_uninspected_error();` —
on the compressed member this reaches `detail::conditional_throw`. -/
def dtorThrow (rbool : R → Bool) (edefault : E) (mkE : E → X)
    (uncaught : Nat) (f : cmp_fallible_result R) :
    Option X × cmp_fallible_result R :=
  let p := f.result_or_error_.throw_if_uninspected_error
    rbool edefault mkE uncaught
  (p.1, ⟨p.2⟩)

/-- `ignore_failure()`: `result_or_error_.inspected_ = true;`. -/
def ignore_failure (f : cmp_fallible_result R) : cmp_fallible_result R :=
  ⟨{ f.result_or_error_ with inspected_ := true }⟩

/-- `as_result_or_error()`: mark inspected, then move-construct the
returned compressed object from the member. -/
def as_result_or_error (f : cmp_fallible_result R) :
    compressed_result_or_error R × cmp_fallible_result R :=
  let s1 : compressed_result_or_error R :=
    { f.result_or_error_ with inspected_ := true }
  let p := s1.moveCtor
  (p.1, ⟨p.2⟩)

/-- `explicit operator bool()`: forwards to the member's `succeeded()`. -/
def toBool (rbool : R → Bool) (f : cmp_fallible_result R) :
    Bool × cmp_fallible_result R :=
  let p := f.result_or_error_.succeeded rbool
  (p.1, ⟨p.2⟩)

end cmp_fallible_result

/-- The `fallible_result<void, Error>` specialisation: holds one
`result_or_error<void, Error> void_or_error_`. -/
structure void_fallible_result (E : Type) : Type where
  void_or_error_ : void_or_error E

namespace void_fallible_result

variable {E X : Type}

/-- Construction forwarding an error source to the member. -/
def fromError (e : E) : void_fallible_result E :=
  ⟨void_or_error.fromError e⟩

/-- Construction from the `no_err_t` marker. -/
def fromNoErr : void_fallible_result E := ⟨void_or_error.fromNoErr⟩

/-- The destructor: `void_or_error_.throw_if_uninspected_error();`. -/
def dtorThrow (mkE : E → X) (f : void_fallible_result E) :
    Option X × void_fallible_result E :=
  let p := f.void_or_error_.throw_if_uninspected_error mkE
  (p.1, ⟨p.2⟩)

/-- `succeeded()`: `return void_or_error_.succeeded();`. -/
def succeededOp (f : void_fallible_result E) :
    Bool × void_fallible_result E :=
  let p := f.void_or_error_.succeeded
  (p.1, ⟨p.2⟩)

/-- `ignore_failure()`: `std::move( *this ).succeeded();` — inspects and
discards the outcome. -/
def ignore_failure (f : void_fallible_result E) : void_fallible_result E :=
  (succeededOp f).2

end void_fallible_result

/-- The observational correspondence between a compressed state and a
general-form state for a qualifying (R, E) pair: same inspection flag,
discriminant given by the truthiness of `result_`, and — E being
stateless — error payload equal to the default-constructed `edefault`. -/
def represents {R E : Type} (rbool : R → Bool) (edefault : E)
    (c : compressed_result_or_error R) (g : result_or_error R E) : Prop :=
  g.inspected_ = c.inspected_ ∧
  g.succeeded_ = rbool c.result_ ∧
  g.payload = if rbool c.result_ then Sum.inl c.result_
              else Sum.inr edefault

/-- Claim C1: for every fallible_result destroyed while its wrapped
result_or_error was never inspected, the destructor throws (a translation
of) the stored error when it holds a failure, and returns normally when it
holds a success — shown for the generic instantiation, for the compressed
instantiation destroyed during normal control flow (no exception in
flight), and for the void-result instantiation. -/
theorem C1_drop_triggers_throw {R E X : Type} (mkE : E → X)
    (rbool : R → Bool) (edefault : E) (r : R) (e : E) :
    ((fallible_result.dtorThrow mkE
        (fallible_result.fromError (R := R) e)).1 = some (mkE e)) ∧
    ((fallible_result.dtorThrow mkE
        (fallible_result.fromResult (E := E) r)).1 = none) ∧
    ((cmp_fallible_result.dtorThrow rbool edefault mkE 0
        (cmp_fallible_result.fromSource r)).1
      = if rbool r then none else some (mkE edefault)) ∧
    ((void_fallible_result.dtorThrow mkE
        (void_fallible_result.fromError e)).1 = some (mkE e)) ∧
    ((void_fallible_result.dtorThrow mkE
        (void_fallible_result.fromNoErr (E := E))).1 = none) := by
  refine ⟨rfl, rfl, ?_, rfl, rfl⟩
  by_cases h : rbool r <;>
    simp [cmp_fallible_result.dtorThrow, cmp_fallible_result.fromSource,
      compressed_result_or_error.throw_if_uninspected_error,
      compressed_result_or_error.throw_if_error,
      compressed_result_or_error.throw_error,
      compressed_result_or_error.succeeded,
      compressed_result_or_error.inspected,
      compressed_result_or_error.fromSource,
      compressed_result_or_error.error, conditional_throw, h]

/-- Claim C9: constructing a result_or_error from a success value, then
calling succeeded() — which returns true — then reading result(), yields
the original value unchanged. -/
theorem C9_round_trip {R E : Type} (v : R) :
    (((result_or_error.fromResult (E := E) v).succeeded).1 = true) ∧
    (result_or_error.result
        ((result_or_error.fromResult (E := E) v).succeeded).2 = some v) :=
  ⟨rfl, rfl⟩

/-- Claim C2 (divergence at the failing input): destroying an uninspected
failed fallible_result while one exception is already propagating.  The
generic-path destructor still throws the stored error — its embedding takes
no uncaught-exception count because nothing on the source path
(`throw_if_uninspected_error` → `throw_if_error` → `throw_error` →
`make_and_throw_exception`) reads one, the guard existing only as
commented-out assertions — and the void-result path behaves the same;
only the compressed specialisation suppresses the throw, via
`detail::conditional_throw`. -/
theorem C2_unwinding_divergence :
    ((fallible_result.dtorThrow (fun e : Nat => e)
        (fallible_result.fromError (R := Bool) 7)).1 = some 7) ∧
    ((void_fallible_result.dtorThrow (fun e : Nat => e)
        (void_fallible_result.fromError 7)).1 = some 7) ∧
    ((cmp_fallible_result.dtorThrow (fun r : Bool => r) (0 : Nat)
        (fun e : Nat => e) 1
        (cmp_fallible_result.fromSource false)).1 = none) :=
  ⟨rfl, rfl, rfl⟩

/-- Claim C4 (counterexample to "exactly when"): an int-like Result —
fundamental, default-constructible and convertible to bool — paired with
an empty Error satisfies the spec's selection condition, yet the source
trait `compressed_result_error_variant` rejects it through its fourth
conjunct `!std::is_fundamental_v<Result>`. -/
theorem C4_fundamental_counterexample :
    (spec_compressed_condition
        ⟨false, true, true, true⟩ ⟨true, false, false, false⟩ = true) ∧
    (compressed_result_error_variant
        ⟨false, true, true, true⟩ ⟨true, false, false, false⟩ = false) := by
  decide

/-- Claim C4 (amended): the compressed representation is selected exactly
when the error type is empty, the result type is convertible to bool,
default-constructible AND not a fundamental type; in that representation
error() synthesises a default-constructed error regardless of the stored
state and succeeded() reads the truthiness of the stored result — no
separate succeeded flag exists. -/
theorem C4_compressed_selection {R E : Type} (rbool : R → Bool)
    (edefault : E) (Rt Et : CppType)
    (s : compressed_result_or_error R) :
    (compressed_result_error_variant Rt Et = true ↔
      (Et.is_empty = true ∧ Rt.is_convertible_to_bool = true ∧
       Rt.is_default_constructible = true ∧ Rt.is_fundamental = false)) ∧
    (s.error edefault = edefault) ∧
    ((s.succeeded rbool).1 = rbool s.result_) := by
  refine ⟨?_, rfl, rfl⟩
  simp [compressed_result_error_variant, and_assoc]

/-- Claim C5: move construction of a result_or_error — in all three
representations — and of a fallible_result marks the moved-from source
inspected (so its destructor never throws and never re-reports), starts
the destination uninspected, and transfers the live payload matching the
source's discriminant. -/
theorem C5_move_transfers_inspection {R E X : Type} (mkE : E → X)
    (s : result_or_error R E) (c : compressed_result_or_error R)
    (v : void_or_error E) (f : fallible_result R E) :
    ((s.moveCtor).1.inspected_ = false ∧
     (s.moveCtor).2.inspected_ = true ∧
     (s.moveCtor).1.succeeded_ = s.succeeded_ ∧
     (s.moveCtor).1.payload = s.payload ∧
     result_or_error.dtorThrow X (s.moveCtor).2 = none) ∧
    ((c.moveCtor).1.inspected_ = false ∧
     (c.moveCtor).2.inspected_ = true ∧
     (c.moveCtor).1.result_ = c.result_) ∧
    ((v.moveCtor).1.inspected_ = false ∧
     (v.moveCtor).2.inspected_ = true ∧
     (v.moveCtor).1.succeeded_ = v.succeeded_ ∧
     (v.succeeded_ = false → (v.moveCtor).1.error_ = v.error_)) ∧
    ((f.moveCtor).1.result_or_error_.inspected_ = false ∧
     (f.moveCtor).2.result_or_error_.inspected_ = true ∧
     (f.moveCtor).1.result_or_error_.succeeded_
        = f.result_or_error_.succeeded_ ∧
     (f.moveCtor).1.result_or_error_.payload
        = f.result_or_error_.payload ∧
     (fallible_result.dtorThrow mkE (f.moveCtor).2).1 = none) := by
  refine ⟨⟨rfl, rfl, rfl, rfl, rfl⟩, ⟨rfl, rfl, rfl⟩,
    ⟨rfl, rfl, rfl, ?_⟩, ⟨rfl, rfl, rfl, rfl, ?_⟩⟩
  · intro h
    simp [void_or_error.moveCtor, void_or_error.succeeded, h]
  · simp [fallible_result.dtorThrow, fallible_result.moveCtor,
      fallible_result.as_result_or_error, result_or_error.moveCtor,
      result_or_error.succeeded,
      result_or_error.throw_if_uninspected_error,
      result_or_error.inspected]

/-- Claim C5 witness: the move facts instantiated at concrete states,
discharging the success-discriminant hypothesis of the void-move
payload-transfer conjunct. -/
theorem C5_witness :
    ((void_or_error.fromError (7 : Nat)).succeeded_ = false →
      ((void_or_error.fromError (7 : Nat)).moveCtor).1.error_
        = (void_or_error.fromError (7 : Nat)).error_) ∧
    ((fallible_result.dtorThrow (fun e : Nat => e)
        ((fallible_result.fromError (R := Bool) (7 : Nat)).moveCtor).2).1
      = none) :=
  ⟨(C5_move_transfers_inspection (fun e : Nat => e)
      (result_or_error.fromError (R := Bool) 7)
      (compressed_result_or_error.fromSource false)
      (void_or_error.fromError 7)
      (fallible_result.fromError (R := Bool) 7)).2.2.1.2.2.2,
   (C5_move_transfers_inspection (fun e : Nat => e)
      (result_or_error.fromError (R := Bool) 7)
      (compressed_result_or_error.fromSource false)
      (void_or_error.fromError 7)
      (fallible_result.fromError (R := Bool) 7)).2.2.2.2.2.2.2⟩

/-- Claim C6: explicitly decaying a fallible_result via as_result_or_error
transfers the payload to the returned result_or_error (which starts
uninspected), leaves the wrapper's member inspected so the wrapper's
destructor no longer throws, and the decayed object's own destructor never
throws and enforces no inspection. -/
theorem C6_decay_suppresses_throw {R E X : Type} (mkE : E → X)
    (f : fallible_result R E) :
    ((f.as_result_or_error).1.inspected_ = false ∧
     (f.as_result_or_error).1.succeeded_
        = f.result_or_error_.succeeded_ ∧
     (f.as_result_or_error).1.payload = f.result_or_error_.payload) ∧
    ((f.as_result_or_error).2.result_or_error_.inspected_ = true ∧
     (fallible_result.dtorThrow mkE (f.as_result_or_error).2).1 = none) ∧
    (∀ g : result_or_error R E, result_or_error.dtorThrow X g = none) := by
  refine ⟨⟨rfl, rfl, rfl⟩, ⟨rfl, ?_⟩, fun g => rfl⟩
  simp [fallible_result.dtorThrow, fallible_result.as_result_or_error,
    result_or_error.moveCtor, result_or_error.succeeded,
    result_or_error.throw_if_uninspected_error, result_or_error.inspected]

/-- Claim C7: succeeded() returns the discriminant and sets the inspected
flag as its side effect (leaving the payload and discriminant untouched),
and the explicit boolean conversion is exactly succeeded() — in all three
result_or_error representations and in the fallible_result wrapper. -/
theorem C7_succeeded_inspects {R E : Type} (rbool : R → Bool)
    (s : result_or_error R E) (c : compressed_result_or_error R)
    (v : void_or_error E) (f : fallible_result R E) :
    ((s.succeeded).1 = s.succeeded_ ∧
     (s.succeeded).2.inspected_ = true ∧
     (s.succeeded).2.succeeded_ = s.succeeded_ ∧
     (s.succeeded).2.payload = s.payload ∧
     s.toBool = s.succeeded) ∧
    ((c.succeeded rbool).1 = rbool c.result_ ∧
     (c.succeeded rbool).2.inspected_ = true ∧
     (c.succeeded rbool).2.result_ = c.result_ ∧
     c.toBool rbool = c.succeeded rbool) ∧
    ((v.succeeded).1 = v.succeeded_ ∧
     (v.succeeded).2.inspected_ = true ∧
     v.toBool = v.succeeded) ∧
    ((f.toBool).1 = (f.result_or_error_.succeeded).1 ∧
     (f.toBool).2.result_or_error_ = (f.result_or_error_.succeeded).2) :=
  ⟨⟨rfl, rfl, rfl, rfl, rfl⟩, ⟨rfl, rfl, rfl, rfl⟩, ⟨rfl, rfl, rfl⟩,
   ⟨rfl, rfl⟩⟩

/-- Claim C3 (counterexample): a failed, uninspected compressed state and
the corresponding general-form state are distinguishable by
throw_if_uninspected_error while one exception is propagating: the
general form throws the translated error, the compressed form — going
through detail::conditional_throw — throws nothing. -/
theorem C3_unwinding_counterexample :
    represents (fun r : Bool => r) ()
      (⟨false, false⟩ : compressed_result_or_error Bool)
      (⟨false, false, Sum.inr ()⟩ : result_or_error Bool Unit) ∧
    ((result_or_error.throw_if_uninspected_error (fun _ : Unit => (5 : Nat))
        (⟨false, false, Sum.inr ()⟩ : result_or_error Bool Unit)).1
      = some 5) ∧
    ((compressed_result_or_error.throw_if_uninspected_error
        (fun r : Bool => r) () (fun _ : Unit => (5 : Nat)) 1
        (⟨false, false⟩ : compressed_result_or_error Bool)).1
      = none) :=
  ⟨⟨rfl, rfl, rfl⟩, rfl, rfl⟩

/-- Claim C3 (amended): for a qualifying pair, the compressed and the
general union-based representations are observationally indistinguishable
on succeeded(), result(), error(), throw_error, throw_if_error and
throw_if_uninspected_error — provided no exception is propagating
(uncaught count 0) when a throwing operation runs; the correspondence
between the two states is preserved by every operation. -/
theorem C3_compressed_general_equiv {R E X : Type} (rbool : R → Bool)
    (edefault : E) (mkE : E → X) (c : compressed_result_or_error R)
    (g : result_or_error R E) (h : represents rbool edefault c g) :
    ((g.succeeded).1 = (c.succeeded rbool).1 ∧
     represents rbool edefault (c.succeeded rbool).2 (g.succeeded).2) ∧
    (rbool c.result_ = true → g.result = some c.result_) ∧
    (rbool c.result_ = false → g.error = some (c.error edefault)) ∧
    (rbool c.result_ = false →
      (g.throw_error mkE).1 = (c.throw_error edefault mkE 0).1) ∧
    ((g.throw_if_error mkE).1
        = (c.throw_if_error rbool edefault mkE 0).1 ∧
     represents rbool edefault (c.throw_if_error rbool edefault mkE 0).2
       (g.throw_if_error mkE).2) ∧
    ((g.throw_if_uninspected_error mkE).1
        = (c.throw_if_uninspected_error rbool edefault mkE 0).1 ∧
     represents rbool edefault
       (c.throw_if_uninspected_error rbool edefault mkE 0).2
       (g.throw_if_uninspected_error mkE).2) := by
  obtain ⟨hi, hs, hp⟩ := h
  cases hb : rbool c.result_ <;> cases hin : c.inspected_ <;>
    simp_all [represents, result_or_error.succeeded,
      result_or_error.result, result_or_error.error,
      result_or_error.throw_error, result_or_error.throw_if_error,
      result_or_error.throw_if_uninspected_error,
      result_or_error.inspected, compressed_result_or_error.succeeded,
      compressed_result_or_error.result, compressed_result_or_error.error,
      compressed_result_or_error.throw_error,
      compressed_result_or_error.throw_if_error,
      compressed_result_or_error.throw_if_uninspected_error,
      compressed_result_or_error.inspected, conditional_throw,
      Sum.getLeft?, Sum.getRight?]

/-- Claim C3 amended witness: the equivalence applied at a failed,
uninspected concrete pair, with no exception in flight. -/
theorem C3_equiv_witness :
    ((result_or_error.succeeded
        (⟨false, false, Sum.inr ()⟩ : result_or_error Bool Unit)).1
      = (compressed_result_or_error.succeeded (fun r : Bool => r)
          ⟨false, false⟩).1) ∧
    (result_or_error.error
        (⟨false, false, Sum.inr ()⟩ : result_or_error Bool Unit)
      = some (compressed_result_or_error.error () ⟨false, false⟩)) ∧
    ((result_or_error.throw_if_uninspected_error (fun _ : Unit => (5 : Nat))
        (⟨false, false, Sum.inr ()⟩ : result_or_error Bool Unit)).1
      = (compressed_result_or_error.throw_if_uninspected_error
          (fun r : Bool => r) () (fun _ : Unit => (5 : Nat)) 0
          ⟨false, false⟩).1) :=
  ⟨(C3_compressed_general_equiv (fun r : Bool => r) () (fun _ => (5 : Nat))
      ⟨false, false⟩ ⟨false, false, Sum.inr ()⟩ ⟨rfl, rfl, rfl⟩).1.1,
   (C3_compressed_general_equiv (fun r : Bool => r) () (fun _ => (5 : Nat))
      ⟨false, false⟩ ⟨false, false, Sum.inr ()⟩ ⟨rfl, rfl, rfl⟩).2.2.1 rfl,
   (C3_compressed_general_equiv (fun r : Bool => r) () (fun _ => (5 : Nat))
      ⟨false, false⟩ ⟨false, false, Sum.inr ()⟩
      ⟨rfl, rfl, rfl⟩).2.2.2.2.2.1⟩

/-- Claim C8: throw_if_uninspected_error() is a no-op on an
already-inspected object and coincides with throw_if_error() on an
uninspected one; throw_if_error() always marks the object inspected
(touching nothing else), returns normally on success and throws the
translated stored error on failure. -/
theorem C8_throw_if_uninspected {R E X : Type} (mkE : E → X)
    (s : result_or_error R E) :
    (s.inspected_ = true →
      s.throw_if_uninspected_error mkE = (none, s)) ∧
    (s.inspected_ = false →
      s.throw_if_uninspected_error mkE = s.throw_if_error mkE) ∧
    ((s.throw_if_error mkE).2.inspected_ = true ∧
     (s.throw_if_error mkE).2.succeeded_ = s.succeeded_ ∧
     (s.throw_if_error mkE).2.payload = s.payload) ∧
    (s.succeeded_ = true → (s.throw_if_error mkE).1 = none) ∧
    (∀ e : E, s.succeeded_ = false → s.payload = Sum.inr e →
      (s.throw_if_error mkE).1 = some (mkE e)) := by
  refine ⟨fun hi => ?_, fun hi => ?_, ⟨?_, ?_, ?_⟩, fun hb => ?_,
    fun e hb hp => ?_⟩ <;>
    cases hsb : s.succeeded_ <;>
      simp_all [result_or_error.throw_if_uninspected_error,
        result_or_error.throw_if_error, result_or_error.throw_error,
        result_or_error.succeeded, result_or_error.inspected,
        Sum.getRight?]

/-- Claim C8 witness: the dichotomy applied to a concrete uninspected
failure: the destructor-path operation coincides with throw_if_error,
which throws the stored error. -/
theorem C8_witness :
    (result_or_error.throw_if_uninspected_error (fun e : Nat => e)
        (⟨false, false, Sum.inr 7⟩ : result_or_error Bool Nat)
      = result_or_error.throw_if_error (fun e : Nat => e)
          ⟨false, false, Sum.inr 7⟩) ∧
    ((result_or_error.throw_if_error (fun e : Nat => e)
        (⟨false, false, Sum.inr 7⟩ : result_or_error Bool Nat)).1
      = some 7) :=
  ⟨(C8_throw_if_uninspected (fun e : Nat => e)
      ⟨false, false, Sum.inr 7⟩).2.1 rfl,
   (C8_throw_if_uninspected (fun e : Nat => e)
      ⟨false, false, Sum.inr 7⟩).2.2.2.2 7 rfl rfl⟩

/-- Claim C10: inspection is monotone — every public state-returning
operation leaves the inspected flag set afterwards (so in particular none
resets it once set; the remaining accessors inspected(), result() and
error() mutate no state at all in the source), and a fallible_result
whose wrapped object has been inspected is destroyed without throwing. -/
theorem C10_inspection_monotone {R E X : Type} (mkE : E → X)
    (rbool : R → Bool) (edefault : E) (uncaught : Nat)
    (s : result_or_error R E) (c : compressed_result_or_error R)
    (v : void_or_error E) (f : fallible_result R E) :
    ((s.succeeded).2.inspected_ = true ∧
     (s.toBool).2.inspected_ = true ∧
     (s.throw_if_error mkE).2.inspected_ = true ∧
     (s.throw_if_uninspected_error mkE).2.inspected_ = true ∧
     (s.moveCtor).2.inspected_ = true ∧
     (eq_no_err s).2.inspected_ = true ∧
     (eq_an_err s).2.inspected_ = true) ∧
    ((c.succeeded rbool).2.inspected_ = true ∧
     (c.throw_if_uninspected_error rbool edefault mkE
        uncaught).2.inspected_ = true ∧
     (c.moveCtor).2.inspected_ = true) ∧
    ((v.succeeded).2.inspected_ = true ∧
     (v.throw_if_uninspected_error mkE).2.inspected_ = true ∧
     (v.moveCtor).2.inspected_ = true) ∧
    ((f.toBool).2.result_or_error_.inspected_ = true ∧
     (f.ignore_failure).result_or_error_.inspected_ = true ∧
     (f.as_result_or_error).2.result_or_error_.inspected_ = true) ∧
    (f.result_or_error_.inspected_ = true →
      f.dtorThrow mkE = (none, f)) := by
  refine ⟨⟨rfl, rfl, ?_, ?_, rfl, rfl, rfl⟩, ⟨rfl, ?_, rfl⟩,
    ⟨rfl, ?_, rfl⟩, ⟨rfl, rfl, rfl⟩, fun h => ?_⟩
  · cases hsb : s.succeeded_ <;>
      simp [result_or_error.throw_if_error, result_or_error.throw_error,
        result_or_error.succeeded, hsb]
  · cases hin : s.inspected_ <;> cases hsb : s.succeeded_ <;>
      simp [result_or_error.throw_if_uninspected_error,
        result_or_error.throw_if_error, result_or_error.throw_error,
        result_or_error.succeeded, result_or_error.inspected, hin, hsb]
  · cases hin : c.inspected_ <;> cases hb : rbool c.result_ <;>
      simp [compressed_result_or_error.throw_if_uninspected_error,
        compressed_result_or_error.throw_if_error,
        compressed_result_or_error.throw_error,
        compressed_result_or_error.succeeded,
        compressed_result_or_error.inspected, hin, hb]
  · cases hin : v.inspected_ <;> cases hsb : v.succeeded_ <;>
      simp [void_or_error.throw_if_uninspected_error,
        void_or_error.throw_if_error, void_or_error.throw_error,
        void_or_error.succeeded, void_or_error.inspected, hin, hsb]
  · simp [fallible_result.dtorThrow,
      result_or_error.throw_if_uninspected_error,
      result_or_error.inspected, h]

/-- Claim C10 witness: an already-inspected concrete fallible_result is
destroyed without throwing and without state change. -/
theorem C10_witness :
    fallible_result.dtorThrow (fun e : Nat => e)
        (⟨⟨false, true, Sum.inr 7⟩⟩ : fallible_result Bool Nat)
      = (none, ⟨⟨false, true, Sum.inr 7⟩⟩) :=
  (C10_inspection_monotone (fun e : Nat => e) (fun r : Bool => r) 0 0
    ⟨false, true, Sum.inr 7⟩ ⟨false, true⟩ ⟨false, true, some 7⟩
    ⟨⟨false, true, Sum.inr 7⟩⟩).2.2.2.2 rfl

end PsiErr
